import Mathlib

/-!
Verification of the rule-based resume analysis core
(`src/utils/resume_analyzer.py`, class `ResumeAnalyzer`).

The Python code is shallowly embedded: strings are Lean `String`s
(Python `len` counts code points, as does `String.length`); Python
`str.lower()` is modelled char-wise by `Char.toLower` (exact on the
ASCII inputs the heuristics target); the regular expressions the code
uses are simple enough to embed directly as executable searches
(`\b w \b` whole-word search, a literal-substring search, the
`[A-Z][a-z]+` capital-word search, and the non-ASCII character class).
Python `int` arithmetic is `Int`; the two places where Python computes
a score via binary floating point are noted at their definitions.
Dictionaries returned by the code become structures; a dictionary key
that one branch omits becomes an `Option` field; a Python exception is
an `Except.error`.  The class attributes `document_types` and
`essential_sections` are *referenced* by the code but never assigned
anywhere in the class, so every attribute access raises
`AttributeError`; they are embedded as failing attribute lookups.
-/

namespace ResumeAnalyzer

/-! ### String primitives -/

/-- Lowered character list of a string (Python `s.lower()`, ASCII-exact). -/
def lc (s : String) : List Char := s.toList.map Char.toLower

/-- `needle` is a prefix of `hay` (on raw character lists). -/
def isPrefixC : List Char → List Char → Bool
  | [], _ => true
  | _ :: _, [] => false
  | a :: as, b :: bs => a == b && isPrefixC as bs

/-- `needle` occurs as a contiguous substring of `hay`
(Python `needle in hay` on strings). -/
def isSubC (needle : List Char) : List Char → Bool
  | [] => needle.isEmpty
  | c :: t => isPrefixC needle (c :: t) || isSubC needle t

/-- Python regex word character `\w` (ASCII approximation). -/
def isWordChar (c : Char) : Bool := c.isAlphanum || c == '_'

def optWordChar : Option Char → Bool
  | none => false
  | some c => isWordChar c

/-- A `\b` word boundary between two (possibly absent) adjacent characters. -/
def wwBoundary (a b : Option Char) : Bool := optWordChar a != optWordChar b

/-- The literal `w` matches at the head of `hay` with `\b` on both sides;
`prev` is the character just before the match position. -/
def wwMatchAt (w : List Char) (prev : Option Char) (hay : List Char) : Bool :=
  isPrefixC w hay && wwBoundary prev w.head? && wwBoundary w.getLast? (hay.drop w.length).head?

/-- Search `hay` left to right for a `\b w \b` match (Python
`re.search(r'\b' + re.escape(w) + r'\b', hay)` for a literal `w`). -/
def wwSearch (w : List Char) (prev : Option Char) : List Char → Bool
  | [] => wwMatchAt w prev []
  | c :: t => wwMatchAt w prev (c :: t) || wwSearch w (some c) t

/-- Whole-word search of a literal word in a character list. -/
def search_word (w : String) (hay : List Char) : Bool := wwSearch w.toList none hay

/-- Split a character list on a separator character (Python
`s.split(sep)` for a one-character separator; `"".split(sep) == [""]`). -/
def splitOnC (sep : Char) : List Char → List (List Char)
  | [] => [[]]
  | c :: t =>
    let r := splitOnC sep t
    if c == sep then [] :: r
    else
      match r with
      | [] => [[c]]
      | h :: rt => (c :: h) :: rt

/-- Python `str.strip()` (whitespace at both ends; `Char.isWhitespace`
covers the whitespace characters that occur in resume text). -/
def pyStrip (s : String) : String :=
  String.mk (((s.toList.dropWhile Char.isWhitespace).reverse.dropWhile Char.isWhitespace).reverse)

/-- Python `text.split('\n')`, as strings. -/
def splitLines (text : String) : List String :=
  (splitOnC '\n' text.toList).map String.mk

/-! ### Lexicons (`ResumeAnalyzer.__init__`: `self.sections`) -/

def sections_lexicon : List (String × List String) :=
  [("education", ["education", "academic", "university", "college", "school"]),
   ("experience", ["experience", "employment", "work", "job"]),
   ("skills", ["skills", "technical skills", "competencies", "expertise"]),
   ("projects", ["projects", "portfolio", "achievements"]),
   ("summary", ["summary", "profile", "objective", "about"])]

/-! ### Scorers -/

/-- `re.search(r'\b(experience|education|skills)\b', text.lower())` is not `None`. -/
def ats_keyword_found (text : String) : Bool :=
  ["experience", "education", "skills"].any (fun w => search_word w (lc text))

/-- `re.search(r'[^\x00-\x7F]', text)` is not `None`. -/
def has_non_ascii (text : String) : Bool := text.toList.any (fun c => 127 < c.toNat)

/-- `_calculate_ats_score`. -/
def calculate_ats_score (text : String) : Int :=
  let score : Int := 100
  let score := if text.length < 100 then score - 20 else score
  let score := if !ats_keyword_found text then score - 15 else score
  let score := if has_non_ascii text then score - 10 else score
  max 0 score

/-- `re.search(r'\n{2,}', text)` is not `None`. -/
def has_double_newline (text : String) : Bool := isSubC ['\n', '\n'] text.toList

/-- `re.search(r'[A-Z][a-z]+', text)` is not `None`. -/
def has_cap_word : List Char → Bool
  | c1 :: c2 :: rest => (c1.isUpper && c2.isLower) || has_cap_word (c2 :: rest)
  | _ => false

/-- `_calculate_format_score`. -/
def calculate_format_score (text : String) : Int :=
  let score : Int := 100
  let score := if !has_double_newline text then score - 10 else score
  let score := if !has_cap_word text.toList then score - 10 else score
  max 0 score

/-- One section of `self.sections` counts as found: some keyword occurs
in `text.lower()` (`any(keyword in text.lower() for keyword in section_keywords)`). -/
def section_found (text : String) (kws : List String) : Bool :=
  kws.any (fun k => isSubC k.toList (lc text))

/-- `_calculate_section_score`.  Python computes
`int((found_sections / 5) * 100)` in binary floating point; for
`found_sections` in `0..5` that float is exactly `found_sections * 20`,
so the embedding uses exact natural arithmetic `found * 100 / 5`. -/
def calculate_section_score (text : String) : Int :=
  let found := (sections_lexicon.filter (fun p => section_found text p.2)).length
  Int.ofNat (found * 100 / 5)

/-! ### Keyword match (`_analyze_keyword_match`) -/

structure JobRequirements where
  required_skills : List String
deriving DecidableEq, Repr

/-- The dictionary `_analyze_keyword_match` returns.  The
no-requirements branch returns `{'score': 0, 'missing_skills': []}`
with **no** `'found_skills'` key, so that key is an `Option` field
(`none` = key absent). -/
structure KeywordMatch where
  score : Int
  found_skills : Option (List String)
  missing_skills : List String
deriving DecidableEq, Repr

/-- One skill of `_analyze_keyword_match` is found:
`re.search(r'\b' + re.escape(skill.lower()) + r'\b', text.lower())`. -/
def skill_found_ww (skill text : String) : Bool := wwSearch (lc skill) none (lc text)

/-- `_analyze_keyword_match`.  Python truncates
`(len(found) / len(required)) * 100` computed in floating point; the
embedding uses the exact truncation `found * 100 / required` (they
agree on every instance proved below). -/
def analyze_keyword_match (text : String) (jr : Option JobRequirements) : KeywordMatch :=
  match jr with
  | none => { score := 0, found_skills := none, missing_skills := [] }
  | some j =>
    let required := j.required_skills
    let (found, missing) := required.partition (fun s => skill_found_ww s text)
    { score := if required.isEmpty then 0 else Int.ofNat (found.length * 100 / required.length)
      found_skills := some found
      missing_skills := missing }

/-! ### Suggestions (`_generate_suggestions`) -/

def suggestion_too_short : String :=
  "Resume appears too short. Consider adding more details about your experience and skills."
def suggestion_no_experience : String :=
  "No work experience section found. Add your professional experience."
def suggestion_no_education : String :=
  "No education section found. Add your educational background."
def suggestion_no_skills : String :=
  "No skills section found. List your technical and soft skills."

def experience_words : List String := ["experience", "work", "job"]
def education_words : List String := ["education", "university", "college", "school"]
def skills_words : List String := ["skills", "expertise", "competencies"]

/-- `_generate_suggestions`: four independent rules appending in order. -/
def generate_suggestions (text : String) : List String :=
  (if text.length < 200 then [suggestion_too_short] else []) ++
  (if !(experience_words.any (fun w => search_word w (lc text))) then [suggestion_no_experience] else []) ++
  (if !(education_words.any (fun w => search_word w (lc text))) then [suggestion_no_education] else []) ++
  (if !(skills_words.any (fun w => search_word w (lc text))) then [suggestion_no_skills] else [])

/-! ### The facade (`analyze_resume`) -/

structure ResumeData where
  raw_text : String
deriving DecidableEq, Repr

structure Analysis where
  document_type : String
  ats_score : Int
  format_score : Int
  section_score : Int
  keyword_match : KeywordMatch
  suggestions : List String
deriving DecidableEq, Repr

/-- `analyze_resume` either returns the full analysis dictionary or a
dictionary carrying only an `'error'` key; it never raises (the whole
body sits in `try/except` and the except branch also returns an error
dictionary). -/
inductive AnalyzeResult where
  | error : String → AnalyzeResult
  | ok : Analysis → AnalyzeResult
deriving DecidableEq, Repr

def AnalyzeResult.isError : AnalyzeResult → Bool
  | .error _ => true
  | .ok _ => false

/-- `analyze_resume`: `resume_data.get('raw_text', '')`, the `if not text`
guard (Python string falsiness = emptiness), then the five component
computations — all of which are total, so the `except` branch is
unreachable on string input. -/
def analyze_resume (rd : ResumeData) (jr : Option JobRequirements) : AnalyzeResult :=
  let text := rd.raw_text
  if text = "" then .error "No text content found in resume"
  else .ok
    { document_type := "resume"
      ats_score := calculate_ats_score text
      format_score := calculate_format_score text
      section_score := calculate_section_score text
      keyword_match := analyze_keyword_match text jr
      suggestions := generate_suggestions text }

/-! ### The standalone keyword matcher (`calculate_keyword_match`) -/

/-- Result dictionary of `calculate_keyword_match`; its `score` is a
Python float (`(len(found)/len(required)) * 100`), embedded as the
exact rational it approximates (exact on every instance proved below). -/
structure KeywordMatchQ where
  score : ℚ
  found_skills : List String
  missing_skills : List String
deriving DecidableEq, Repr

/-- One skill of `calculate_keyword_match` is found: `skill_lower in
resume_text` (plain substring of the lowered text) or `any(skill_lower
in phrase for phrase in resume_text.split('.'))`. -/
def skill_found_sub (skill text : String) : Bool :=
  isSubC (lc skill) (lc text) ||
    (splitOnC '.' (lc text)).any (fun phrase => isSubC (lc skill) phrase)

/-- `calculate_keyword_match`. -/
def calculate_keyword_match (resume_text : String) (required_skills : List String) :
    KeywordMatchQ :=
  let (found, missing) := required_skills.partition (fun s => skill_found_sub s resume_text)
  { score := if required_skills.isEmpty then 0
             else (found.length : ℚ) / (required_skills.length : ℚ) * 100
    found_skills := found
    missing_skills := missing }

/-- The spec sentence for the keyword matcher, stated as written (a
refinement reference point, **not** a translation of the code): a skill
counts as found iff it appears whole-word case-insensitively in the
text (exact match) or as a substring of some period-delimited fragment
of the text (partial match). -/
def spec_skill_found (skill text : String) : Bool :=
  wwSearch (lc skill) none (lc text) ||
    (splitOnC '.' (lc text)).any (fun phrase => isSubC (lc skill) phrase)

/-! ### Extractors and the missing class attributes

`detect_document_type`, `extract_education`, `extract_experience`,
`extract_projects` read `self.document_types`, and
`check_resume_sections` reads `self.essential_sections`; neither
attribute is ever assigned anywhere in the class (only `self.sections`
is set in `__init__`), so every access raises `AttributeError`.  The
two lookups are embedded as failing attribute reads; computations that
perform them run in `Except`. -/

def document_types_attr : Except String (List (String × List String)) :=
  .error "AttributeError: ResumeAnalyzer object has no attribute document_types"

def essential_sections_attr : Except String (List (String × List String)) :=
  .error "AttributeError: ResumeAnalyzer object has no attribute essential_sections"

def education_keywords : List String :=
  ["education", "academic", "qualification", "degree", "university", "college",
   "school", "institute", "certification", "diploma", "bachelor", "master",
   "phd", "b.tech", "m.tech", "b.e", "m.e", "b.sc", "m.sc", "bca", "mca", "b.com",
   "m.com", "b.cs-it", "imca", "bba", "mba", "honors", "scholarship"]

def experience_keywords : List String :=
  ["experience", "employment", "work history", "professional experience",
   "work experience", "career history", "professional background",
   "employment history", "job history", "positions held", "experience",
   "job title", "job responsibilities", "job description", "job summary"]

/-- Loop state of the `extract_education` / `extract_experience` scans:
`in_education_section` / `in_experience_section`, `current_entry`, and
the accumulated entry list. -/
structure ExtState where
  in_sec : Bool
  cur : List String
  out : List String
deriving DecidableEq, Repr

/-- `' '.join(current_entry)`. -/
def joinSp (entry : List String) : String := String.intercalate " " entry

/-- One loop iteration of `extract_education` / `extract_experience`
(the two bodies are identical up to the keyword list `kws`):
strip the line; a line containing a section keyword is appended (unless
it *equals* a keyword, pure header) and opens the section; inside the
section, a non-empty line first evaluates
`any(keyword in line for keyword in self.document_types['resume'])`,
which raises `AttributeError`; an empty line flushes `current_entry`. -/
def sectionStep (kws : List String) (st : ExtState) (rawLine : String) :
    Except String ExtState :=
  let line := pyStrip rawLine
  let lline := lc line
  if kws.any (fun k => isSubC (lc k) lline) then
    let cur := if !(kws.any (fun k => lc k == lline)) then st.cur ++ [line] else st.cur
    .ok { st with in_sec := true, cur := cur }
  else if st.in_sec then
    if line ≠ "" then do
      let dt ← document_types_attr
      let resume_kws := (dt.lookup "resume").getD []
      if resume_kws.any (fun k => isSubC (lc k) lline) &&
         !(kws.any (fun k => isSubC (lc k) lline)) then
        .ok { in_sec := false, cur := [],
              out := st.out ++ (if st.cur.isEmpty then [] else [joinSp st.cur]) }
      else
        .ok { st with cur := st.cur ++ [line] }
    else
      if !st.cur.isEmpty then .ok { st with cur := [], out := st.out ++ [joinSp st.cur] }
      else .ok st
  else .ok st

/-- Shared body of `extract_education` / `extract_experience`: scan the
lines, then flush any remaining `current_entry`. -/
def extract_section (kws : List String) (text : String) : Except String (List String) := do
  let st ← (splitLines text).foldlM (sectionStep kws) ⟨false, [], []⟩
  .ok (st.out ++ (if st.cur.isEmpty then [] else [joinSp st.cur]))

/-- `extract_education`. -/
def extract_education (text : String) : Except String (List String) :=
  extract_section education_keywords text

/-- `extract_experience`. -/
def extract_experience (text : String) : Except String (List String) :=
  extract_section experience_keywords text

/-- `check_resume_sections`: lowers the text, then iterates over
`self.essential_sections.items()`, which raises `AttributeError`
immediately since the attribute was never assigned. -/
def check_resume_sections (text : String) : Except String ℚ := do
  let t := lc text
  let es ← essential_sections_attr
  let per := es.map (fun p =>
    let found := (p.2.filter (fun k => isSubC (lc k) t)).length
    min (25 : ℚ) ((found : ℚ) / (p.2.length : ℚ) * 25))
  .ok (per.foldl (· + ·) 0)

/-- A 50-character text with none of the ATS keywords and one
non-ASCII character (49 `z`s followed by `é`). -/
def ats_example_text : String := String.mk (List.replicate 49 'z' ++ ['é'])

/-! ## Theorems -/

/-- **C1 (counterexample).** A whitespace-only input is *not* rejected:
`analyze_resume` on a raw text consisting of a single space returns a
full analysis dictionary, not the error dictionary — the guard
`if not text` only fires on the empty string. -/
theorem whitespace_input_not_rejected :
    (analyze_resume ⟨" "⟩ none).isError = false := by decide

/-- **C1 (amended).** The analyze entry point fails (returns the error
dictionary) exactly when the raw text is the empty string; every
non-empty text — including whitespace-only text — runs all scorers and
the suggestion generator and returns a full analysis without error. -/
theorem analyze_rejects_only_empty_text :
    ∀ (rd : ResumeData) (jr : Option JobRequirements),
      ((analyze_resume rd jr).isError = true ↔ rd.raw_text = "") ∧
      (rd.raw_text ≠ "" → analyze_resume rd jr =
        .ok { document_type := "resume"
              ats_score := calculate_ats_score rd.raw_text
              format_score := calculate_format_score rd.raw_text
              section_score := calculate_section_score rd.raw_text
              keyword_match := analyze_keyword_match rd.raw_text jr
              suggestions := generate_suggestions rd.raw_text }) := by
  intro rd jr
  by_cases h : rd.raw_text = "" <;> simp [analyze_resume, h, AnalyzeResult.isError]

/-- Witness for the amended C1 at the concrete non-empty input `"x"`. -/
theorem analyze_rejects_only_empty_text_witness :
    ("x" : String) ≠ "" ∧ analyze_resume ⟨"x"⟩ none =
      .ok { document_type := "resume"
            ats_score := calculate_ats_score "x"
            format_score := calculate_format_score "x"
            section_score := calculate_section_score "x"
            keyword_match := analyze_keyword_match "x" none
            suggestions := generate_suggestions "x" } :=
  ⟨by decide, (analyze_rejects_only_empty_text ⟨"x"⟩ none).2 (by decide)⟩

/-- **C2 (counterexample).** `calculate_keyword_match` counts the skill
`"node.js"` as found in `"xnode.js rocks"` (plain substring test),
although the claimed criterion — whole-word occurrence or substring of
a period-delimited fragment — does not hold there: so "found iff
whole-word or fragment-substring" is false. -/
theorem keyword_match_substring_not_whole_word :
    (calculate_keyword_match "xnode.js rocks" ["node.js"]).found_skills = ["node.js"]
    ∧ (calculate_keyword_match "xnode.js rocks" ["node.js"]).score = 100
    ∧ spec_skill_found "node.js" "xnode.js rocks" = false := by
  have h : skill_found_sub "node.js" "xnode.js rocks" = true := by decide
  refine ⟨?_, ?_, by decide⟩ <;> simp [calculate_keyword_match, h]

/-- **C2 (amended).** `calculate_keyword_match` counts a skill as found
iff it appears case-insensitively as a *substring* of the text (exact
match) or as a substring of some period-delimited fragment (partial
match); the score is `100 * foundCount / totalRequired`; and on
`requiredSkills = ["Python","SQL"]` with a text containing
"Experienced in Python development" but no SQL, the result has score
50, foundSkills `["Python"]`, missingSkills `["SQL"]`. -/
theorem calculate_keyword_match_spec :
    (∀ (text : String) (skills : List String),
       (calculate_keyword_match text skills).found_skills =
         skills.filter (fun s => skill_found_sub s text)
       ∧ (calculate_keyword_match text skills).missing_skills =
         skills.filter (fun s => !(skill_found_sub s text))
       ∧ (calculate_keyword_match text skills).score =
         (if skills.isEmpty then 0
          else ((skills.filter (fun s => skill_found_sub s text)).length : ℚ) /
                 (skills.length : ℚ) * 100))
    ∧ ((calculate_keyword_match "Experienced in Python development" ["Python", "SQL"]).score = 50
       ∧ (calculate_keyword_match "Experienced in Python development"
            ["Python", "SQL"]).found_skills = ["Python"]
       ∧ (calculate_keyword_match "Experienced in Python development"
            ["Python", "SQL"]).missing_skills = ["SQL"]) := by
  constructor
  · intro text skills
    refine ⟨?_, ?_, ?_⟩ <;>
      simp [calculate_keyword_match, List.partition_eq_filter_filter, Function.comp_def]
  · have h1 : skill_found_sub "Python" "Experienced in Python development" = true := by decide
    have h2 : skill_found_sub "SQL" "Experienced in Python development" = false := by decide
    refine ⟨?_, ?_, ?_⟩
    · simp [calculate_keyword_match, h1, h2]
      norm_num
    · simp [calculate_keyword_match, h1, h2]
    · simp [calculate_keyword_match, h1, h2, Function.comp_def]

/-- **C3 (counterexample).** The line `"University work experience"`
matches both the education and the experience keyword lists, and the
two extractors each attribute it to their own section: the same
document line appears in two section blocks, so the blocks do not
partition the line sequence. -/
theorem section_blocks_overlap_counterexample :
    extract_education "University work experience" = .ok ["University work experience"]
    ∧ extract_experience "University work experience" = .ok ["University work experience"] :=
  ⟨rfl, rfl⟩

/-- **C3 (amended).** There is no single segmenter: each section's
extractor scans the document independently, so a line matching several
sections' keyword lists is attributed to each of them (blocks may
overlap), and a line matching no section outside an open section is
attributed to no block at all (there is no `unknown` residual) —
demonstrated by a one-line document claimed by both the education and
the experience extractor, and a non-empty document both extractors
drop entirely. -/
theorem extractors_do_not_partition :
    (extract_education "University work experience" = .ok ["University work experience"]
     ∧ extract_experience "University work experience" = .ok ["University work experience"])
    ∧ (extract_education "hello world" = .ok []
       ∧ extract_experience "hello world" = .ok []) :=
  ⟨⟨rfl, rfl⟩, rfl, rfl⟩

/-- **C4 (code_bug).** The heuristics are not total: the class never
assigns `self.essential_sections` or `self.document_types`, so
`check_resume_sections` raises `AttributeError` on every input, and
`extract_education` raises `AttributeError` as soon as a non-matching
non-empty line is reached inside an open education section. -/
theorem extractors_raise_attribute_error :
    check_resume_sections "Experience" =
      .error "AttributeError: ResumeAnalyzer object has no attribute essential_sections"
    ∧ extract_education "Education\nWorked at ACME Corp" =
      .error "AttributeError: ResumeAnalyzer object has no attribute document_types" :=
  ⟨rfl, rfl⟩

/-- **C8 (counterexample).** With no job-requirements object the
returned dictionary is `{'score': 0, 'missing_skills': []}` — it has
*no* `found_skills` key at all (modelled as `none`), contradicting the
output contract's foundSkills set. -/
theorem keyword_match_absent_found_key :
    (analyze_keyword_match "Python developer" none).found_skills = none
    ∧ (analyze_keyword_match "Python developer" none).found_skills ≠ some [] := by decide

/-- **C8 (amended).** For every text, when no job-requirements object
is supplied, the keyword-match result has score 0 and empty
missingSkills, but contains no foundSkills entry (the key is absent). -/
theorem keyword_match_no_requirements :
    ∀ text : String, analyze_keyword_match text none =
      { score := 0, found_skills := none, missing_skills := [] } :=
  fun _ => rfl

/-- **C5.** The ATS score equals 100 minus 20 if the text is under 100
characters, minus 15 if none of experience/education/skills occurs as a
whole word, minus 10 if a non-ASCII character is present, floored at 0;
and every such 50-character keyword-free text with a non-ASCII
character scores 55. -/
theorem ats_score_spec :
    (∀ text : String, calculate_ats_score text =
       max 0 (100 - (if text.length < 100 then (20 : Int) else 0)
                - (if ats_keyword_found text then 0 else 15)
                - (if has_non_ascii text then 10 else 0)))
    ∧ (∀ text : String, text.length = 50 → ats_keyword_found text = false →
         has_non_ascii text = true → calculate_ats_score text = 55) := by
  constructor
  · intro text
    by_cases h1 : text.length < 100 <;>
      cases h2 : ats_keyword_found text <;>
      cases h3 : has_non_ascii text <;>
      norm_num [calculate_ats_score, h1, h2, h3]
  · intro text h1 h2 h3
    norm_num [calculate_ats_score, h1, h2, h3]

/-- Witness for C5 at a concrete 50-character text (49 `z`s and one `é`). -/
theorem ats_score_spec_witness :
    (ats_example_text.length = 50 ∧ ats_keyword_found ats_example_text = false
      ∧ has_non_ascii ats_example_text = true)
    ∧ calculate_ats_score ats_example_text = 55 :=
  ⟨⟨by decide, by decide, by decide⟩,
   ats_score_spec.2 ats_example_text (by decide) (by decide) (by decide)⟩

/-- **C6.** The basic section-completeness score is the number of the
five canonical sections with at least one keyword occurring
case-insensitively in the text, times 100, divided by 5 (truncated);
a document that is a single "Education: ..." line scores exactly 20. -/
theorem section_score_spec :
    (∀ text : String, calculate_section_score text =
       Int.ofNat ((sections_lexicon.countP (fun p => section_found text p.2)) * 100 / 5))
    ∧ sections_lexicon.length = 5
    ∧ calculate_section_score "Education: B.Sc in Mathematics" = 20 := by
  refine ⟨?_, by decide, by decide⟩
  intro text
  simp [calculate_section_score, List.countP_eq_length_filter]

/-- Helper: the concatenation of four condition-guarded singleton
chunks is a sublist of the four-element list, whichever rules fire. -/
theorem opt4_sublist {α : Type} (c1 c2 c3 c4 : Prop)
    [Decidable c1] [Decidable c2] [Decidable c3] [Decidable c4] (a b c d : α) :
    ((if c1 then [a] else []) ++ (if c2 then [b] else []) ++
      (if c3 then [c] else []) ++ (if c4 then [d] else [])).Sublist [a, b, c, d] := by
  have h1 : (if c1 then [a] else []).Sublist [a] := by split_ifs <;> simp
  have h2 : (if c2 then [b] else []).Sublist [b] := by split_ifs <;> simp
  have h3 : (if c3 then [c] else []).Sublist [c] := by split_ifs <;> simp
  have h4 : (if c4 then [d] else []).Sublist [d] := by split_ifs <;> simp
  exact ((h1.append h2).append h3).append h4

/-- **C7.** The suggestion generator evaluates its four rules in
declaration order: the output is always an order-preserving,
duplicate-free selection of the four suggestion strings; each
suggestion appears iff its rule fires; and a text under 200 characters
lacking all three keyword groups yields exactly the four suggestions,
in order, each non-empty. -/
theorem suggestions_spec :
    (∀ text : String,
       (generate_suggestions text).Sublist
         [suggestion_too_short, suggestion_no_experience,
          suggestion_no_education, suggestion_no_skills]
       ∧ (generate_suggestions text).Nodup
       ∧ (suggestion_too_short ∈ generate_suggestions text ↔ text.length < 200)
       ∧ (suggestion_no_experience ∈ generate_suggestions text ↔
            experience_words.any (fun w => search_word w (lc text)) = false)
       ∧ (suggestion_no_education ∈ generate_suggestions text ↔
            education_words.any (fun w => search_word w (lc text)) = false)
       ∧ (suggestion_no_skills ∈ generate_suggestions text ↔
            skills_words.any (fun w => search_word w (lc text)) = false))
    ∧ (∀ text : String, text.length < 200 →
         experience_words.any (fun w => search_word w (lc text)) = false →
         education_words.any (fun w => search_word w (lc text)) = false →
         skills_words.any (fun w => search_word w (lc text)) = false →
         generate_suggestions text =
           [suggestion_too_short, suggestion_no_experience,
            suggestion_no_education, suggestion_no_skills])
    ∧ (suggestion_too_short ≠ "" ∧ suggestion_no_experience ≠ ""
       ∧ suggestion_no_education ≠ "" ∧ suggestion_no_skills ≠ "") := by
  have d12 : suggestion_too_short ≠ suggestion_no_experience := by decide
  have d13 : suggestion_too_short ≠ suggestion_no_education := by decide
  have d14 : suggestion_too_short ≠ suggestion_no_skills := by decide
  have d23 : suggestion_no_experience ≠ suggestion_no_education := by decide
  have d24 : suggestion_no_experience ≠ suggestion_no_skills := by decide
  have d34 : suggestion_no_education ≠ suggestion_no_skills := by decide
  refine ⟨?_, ?_, by decide, by decide, by decide, by decide⟩
  · intro text
    have hsub : (generate_suggestions text).Sublist
        [suggestion_too_short, suggestion_no_experience,
         suggestion_no_education, suggestion_no_skills] :=
      opt4_sublist _ _ _ _ _ _ _ _
    refine ⟨hsub, hsub.nodup (by decide), ?_, ?_, ?_, ?_⟩ <;>
      (by_cases h1 : text.length < 200 <;>
       cases h2 : experience_words.any (fun w => search_word w (lc text)) <;>
       cases h3 : education_words.any (fun w => search_word w (lc text)) <;>
       cases h4 : skills_words.any (fun w => search_word w (lc text)) <;>
       simp [generate_suggestions, h1, h2, h3, h4, d12, d13, d14, d23, d24, d34,
             d12.symm, d13.symm, d14.symm, d23.symm, d24.symm, d34.symm])
  · intro text h1 h2 h3 h4
    simp [generate_suggestions, h1, h2, h3, h4]

/-- Witness for C7 at the concrete text `"zzzz"`. -/
theorem suggestions_spec_witness :
    (("zzzz" : String).length < 200
     ∧ experience_words.any (fun w => search_word w (lc "zzzz")) = false
     ∧ education_words.any (fun w => search_word w (lc "zzzz")) = false
     ∧ skills_words.any (fun w => search_word w (lc "zzzz")) = false)
    ∧ generate_suggestions "zzzz" =
        [suggestion_too_short, suggestion_no_experience,
         suggestion_no_education, suggestion_no_skills] :=
  ⟨⟨by decide, by decide, by decide, by decide⟩,
   suggestions_spec.2.1 "zzzz" (by decide) (by decide) (by decide) (by decide)⟩

/-- Helper: the ATS score stays in `[0, 100]`. -/
theorem ats_score_bounds (text : String) :
    0 ≤ calculate_ats_score text ∧ calculate_ats_score text ≤ 100 := by
  constructor
  · exact le_max_left 0 _
  · simp only [calculate_ats_score]
    split_ifs <;> omega

/-- Helper: the format score stays in `[0, 100]`. -/
theorem format_score_bounds (text : String) :
    0 ≤ calculate_format_score text ∧ calculate_format_score text ≤ 100 := by
  constructor
  · exact le_max_left 0 _
  · simp only [calculate_format_score]
    split_ifs <;> omega

/-- Helper: the section score stays in `[0, 100]`. -/
theorem section_score_bounds (text : String) :
    0 ≤ calculate_section_score text ∧ calculate_section_score text ≤ 100 := by
  have h : (sections_lexicon.filter (fun p => section_found text p.2)).length ≤ 5 :=
    (List.length_filter_le _ _).trans (by decide)
  simp only [calculate_section_score, Int.ofNat_eq_natCast]
  omega

/-- Helper: the keyword-match score stays in `[0, 100]`. -/
theorem keyword_score_bounds (text : String) (jr : Option JobRequirements) :
    0 ≤ (analyze_keyword_match text jr).score ∧ (analyze_keyword_match text jr).score ≤ 100 := by
  cases jr with
  | none => simp [analyze_keyword_match]
  | some j =>
    have hscore : (analyze_keyword_match text (some j)).score =
        if j.required_skills.isEmpty then 0
        else Int.ofNat ((j.required_skills.filter (fun s => skill_found_ww s text)).length * 100 /
          j.required_skills.length) := by
      simp [analyze_keyword_match, List.partition_eq_filter_filter]
    rw [hscore]
    by_cases he : j.required_skills.isEmpty
    · rw [if_pos he]
      exact ⟨le_refl 0, by norm_num⟩
    · rw [if_neg he]
      have hn : 0 < j.required_skills.length :=
        List.length_pos.mpr (by simpa [List.isEmpty_iff] using he)
      have hf : (j.required_skills.filter (fun s => skill_found_ww s text)).length ≤
          j.required_skills.length := List.length_filter_le _ _
      have h1 : (j.required_skills.filter (fun s => skill_found_ww s text)).length * 100 ≤
          j.required_skills.length * 100 := Nat.mul_le_mul_right _ hf
      have h2 : (j.required_skills.filter (fun s => skill_found_ww s text)).length * 100 /
          j.required_skills.length ≤
          j.required_skills.length * 100 / j.required_skills.length :=
        Nat.div_le_div_right h1
      have h3 : j.required_skills.length * 100 / j.required_skills.length = 100 :=
        Nat.mul_div_cancel_left 100 hn
      have hbound : (j.required_skills.filter (fun s => skill_found_ww s text)).length * 100 /
          j.required_skills.length ≤ 100 := by omega
      exact ⟨Int.ofNat_nonneg _, by rw [Int.ofNat_eq_natCast]; exact_mod_cast hbound⟩

/-- **C9.** For every non-empty text and any job requirements, the
analysis returns a full result whose atsScore, formatScore,
sectionScore and keyword-match score are all integers in `[0, 100]`. -/
theorem analysis_scores_in_range :
    ∀ (text : String) (jr : Option JobRequirements), text ≠ "" →
      ∃ a : Analysis, analyze_resume ⟨text⟩ jr = .ok a
        ∧ (0 ≤ a.ats_score ∧ a.ats_score ≤ 100)
        ∧ (0 ≤ a.format_score ∧ a.format_score ≤ 100)
        ∧ (0 ≤ a.section_score ∧ a.section_score ≤ 100)
        ∧ (0 ≤ a.keyword_match.score ∧ a.keyword_match.score ≤ 100) := by
  intro text jr h
  refine ⟨{ document_type := "resume"
            ats_score := calculate_ats_score text
            format_score := calculate_format_score text
            section_score := calculate_section_score text
            keyword_match := analyze_keyword_match text jr
            suggestions := generate_suggestions text }, ?_, ?_, ?_, ?_, ?_⟩
  · simp [analyze_resume, h]
  · exact ats_score_bounds text
  · exact format_score_bounds text
  · exact section_score_bounds text
  · exact keyword_score_bounds text jr

/-- Witness for C9 at the concrete non-empty input `"x"`. -/
theorem analysis_scores_in_range_witness :
    ("x" : String) ≠ "" ∧
    (∃ a : Analysis, analyze_resume ⟨"x"⟩ none = .ok a
       ∧ (0 ≤ a.ats_score ∧ a.ats_score ≤ 100)
       ∧ (0 ≤ a.format_score ∧ a.format_score ≤ 100)
       ∧ (0 ≤ a.section_score ∧ a.section_score ≤ 100)
       ∧ (0 ≤ a.keyword_match.score ∧ a.keyword_match.score ≤ 100)) :=
  ⟨by decide, analysis_scores_in_range "x" none (by decide)⟩

/-- **C10.** `analyze_resume` is total and always returns a dictionary:
on empty raw text it returns the error dictionary, and on any other
input it returns the full analysis — nothing is ever propagated as an
exception to the caller (the embedded facade is a total function whose
only outcomes are these two dictionaries). -/
theorem analyze_total_spec :
    ∀ (rd : ResumeData) (jr : Option JobRequirements),
      (rd.raw_text = "" ∧ analyze_resume rd jr = .error "No text content found in resume")
      ∨ (rd.raw_text ≠ "" ∧ analyze_resume rd jr =
          .ok { document_type := "resume"
                ats_score := calculate_ats_score rd.raw_text
                format_score := calculate_format_score rd.raw_text
                section_score := calculate_section_score rd.raw_text
                keyword_match := analyze_keyword_match rd.raw_text jr
                suggestions := generate_suggestions rd.raw_text }) := by
  intro rd jr
  by_cases h : rd.raw_text = ""
  · exact Or.inl ⟨h, by simp [analyze_resume, h]⟩
  · exact Or.inr ⟨h, by simp [analyze_resume, h]⟩

end ResumeAnalyzer
